import Mathlib

/-!
Verification of the biomedical NER & summarization service
(`biomedical_ner.py`, `biomedical_summarizer.py`, `server.py`).

Texts are modelled as lists of characters so that Python's `str.strip()`
and `str.split()` (whitespace tokenization) can be defined structurally.
The two inference engines (HuggingFace pipelines) are external black
boxes; they are modelled as opaque function-valued parameters that may
fail (`Except String`), the summarization engine additionally taking a
seed that models the randomness available when `do_sample` is true.
-/

/-- The six ASCII whitespace characters recognized by Python's
`str.strip()` / `str.split()`. -/
def isPySpace (c : Char) : Bool :=
  c = ' ' || c = '\t' || c = '\n' || c = '\r' || c = Char.ofNat 11 || c = Char.ofNat 12

/-- Texts as character lists. -/
abbrev Str := List Char

/-- Python `s.strip()`: drop whitespace from both ends. -/
def pyStrip (s : Str) : Str :=
  ((s.dropWhile isPySpace).reverse.dropWhile isPySpace).reverse

/-- Helper for `pySplit`; `acc` is the current (reversed) in-progress word. -/
def pySplitGo : Str → Str → List Str
  | [], acc => if acc.isEmpty then [] else [acc.reverse]
  | c :: cs, acc =>
    if isPySpace c then
      if acc.isEmpty then pySplitGo cs [] else acc.reverse :: pySplitGo cs []
    else pySplitGo cs (c :: acc)

/-- Python `s.split()` with no arguments: split on runs of whitespace,
discarding empty pieces. -/
def pySplit (s : Str) : List Str := pySplitGo s []

/-- Python `round(x, 2)` scaled to an integer count of hundredths:
round half to even (banker's rounding). -/
def round2Int (q : ℚ) : ℤ :=
  if q * 100 - ⌊q * 100⌋ < 1 / 2 then ⌊q * 100⌋
  else if 1 / 2 < q * 100 - ⌊q * 100⌋ then ⌊q * 100⌋ + 1
  else if ⌊q * 100⌋ % 2 = 0 then ⌊q * 100⌋ else ⌊q * 100⌋ + 1

/-- Python `round(x, 2)`: the value rounded to two decimal places. -/
def pyRound2 (q : ℚ) : ℚ := (round2Int q : ℚ) / 100

/-! ### Data model -/

/-- One raw span as produced by the token-classification engine
(`self.nlp(text)` in `biomedical_ner.py`).  The offset entries of the
raw result dictionary may be absent, hence `Option`
(`entity.get('start', 0)` / `entity.get('end', 0)` in the source). -/
structure RawEntity where
  word : Str
  entity_group : Str
  score : ℚ
  start : Option ℤ
  «end» : Option ℤ

/-- One formatted entity, as built by `BiomedicalNER.extract_entities`
and echoed by the server's `EntityResponse`. -/
structure Entity where
  word : Str
  entity_group : Str
  score : ℚ
  start : ℤ
  «end» : ℤ

/-- The dictionary built for each raw result inside
`BiomedicalNER.extract_entities`: the score is rounded to two decimals
and missing offsets default to `0`. -/
def formatEntity (e : RawEntity) : Entity :=
  { word := e.word
    entity_group := e.entity_group
    score := pyRound2 e.score
    start := e.start.getD 0
    «end» := e.«end».getD 0 }

/-- The result dictionary of `BiomedicalSummarizer.summarize_text`,
also the server's `SummarizationResponse`. -/
structure SummaryResult where
  original_text : Str
  summary : Str
  original_length : ℕ
  summary_length : ℕ
  compression_ratio : ℚ
  max_length : ℤ
  min_length : ℤ

/-- A Python exception raised by the service layer: either a
`ValueError` raised by the service itself or an error propagated from
the inference engine. -/
inductive PyErr where
  | valueError : String → PyErr
  | inferenceError : String → PyErr

/-- The `str(e)` message of a service-layer exception. -/
def PyErr.msg : PyErr → String
  | .valueError m => m
  | .inferenceError m => m

/-- The token-classification inference engine (the `pipeline("ner", ...)`
object), an external black box: it maps a text to raw entity spans or
fails. -/
structure NEREngine where
  run : Str → Except String (List RawEntity)

/-- The sequence-to-sequence generation engine (the
`pipeline("summarization", ...)` object), an external black box: it maps
`(text, max_length, min_length, do_sample, seed)` to a summary text or
fails.  The seed models the randomness available when `do_sample` is
true; a deterministic engine ignores it when `do_sample` is false. -/
structure SummEngine where
  run : Str → ℤ → ℤ → Bool → ℕ → Except String Str

namespace BiomedicalNER

/-- Method `BiomedicalNER.extract_entities`: raises `ValueError` when the
pipeline is not loaded, otherwise runs the engine and formats each raw
result (the `try/except` re-raises every failure unchanged). -/
def extract_entities (nlp : Option NEREngine) (text : Str) :
    Except PyErr (List Entity) :=
  match nlp with
  | none => .error (.valueError "Model not loaded properly")
  | some eng =>
    match eng.run text with
    | .error msg => .error (.inferenceError msg)
    | .ok results => .ok (results.map formatEntity)

end BiomedicalNER

namespace BiomedicalSummarizer

/-- Method `BiomedicalSummarizer.summarize_text`: raises `ValueError` when the
pipeline is not loaded or the stripped text is empty, otherwise calls
the generation engine with the given bounds and builds the result
dictionary with whitespace word counts and the rounded compression
ratio. -/
def summarize_text (summarizer : Option SummEngine) (seed : ℕ) (text : Str)
    (max_length min_length : ℤ) (do_sample : Bool) :
    Except PyErr SummaryResult :=
  match summarizer with
  | none => .error (.valueError "Summarization model not loaded properly")
  | some eng =>
    if (pyStrip text).isEmpty then
      .error (.valueError "Text input cannot be empty")
    else
      match eng.run text max_length min_length do_sample seed with
      | .error msg => .error (.inferenceError msg)
      | .ok summary_text =>
        .ok { original_text := text
              summary := summary_text
              original_length := (pySplit text).length
              summary_length := (pySplit summary_text).length
              compression_ratio :=
                pyRound2 (((pySplit summary_text).length : ℚ) / ((pySplit text).length : ℚ))
              max_length := max_length
              min_length := min_length }

end BiomedicalSummarizer

/-- A FastAPI `HTTPException` as raised in `server.py`. -/
structure HTTPException where
  status_code : ℕ
  detail : String

/-- The module-level model handles of `server.py`
(`ner_model`, `summarizer_model`), `none` while unloaded. -/
structure ServerState where
  ner_model : Option NEREngine
  summarizer_model : Option SummEngine

namespace Server

/-- Response schema of `POST /extract-entities`. -/
structure NERResponse where
  input_text : Str
  entities : List Entity
  total_entities : ℕ

/-- Response schema of `POST /analyze`. -/
structure AnalyzeResponse where
  text : Str
  entities : List Entity
  count : ℕ

/-- Response schema of `POST /summarize-simple`. -/
structure SimpleSummaryResponse where
  original_text : Str
  summary : Str
  compression_ratio : ℚ

/-- Response schema of `POST /extract-and-summarize`. -/
structure CombinedResponse where
  original_text : Str
  summary : Str
  entities : List Entity
  total_entities : ℕ
  compression_ratio : ℚ
  original_length : ℕ
  summary_length : ℕ

/-- Endpoint `POST /extract-entities` (`extract_entities` in
`server.py`): 503 when the NER handle is unset, 400 on blank text,
otherwise the service result, with service failures mapped to 500. -/
def extract_entities (st : ServerState) (text : Str) :
    Except HTTPException NERResponse :=
  if st.ner_model.isNone then .error ⟨503, "Model not loaded"⟩
  else if (pyStrip text).isEmpty then .error ⟨400, "Text input cannot be empty"⟩
  else
    match BiomedicalNER.extract_entities st.ner_model text with
    | .ok entities => .ok ⟨text, entities, entities.length⟩
    | .error e => .error ⟨500, "Internal server error: " ++ e.msg⟩

/-- Endpoint `POST /analyze` (`analyze_text` in `server.py`): 503 when
the NER handle is unset, otherwise the text is passed straight to the
service — this endpoint performs no emptiness validation. -/
def analyze_text (st : ServerState) (text : Str) :
    Except HTTPException AnalyzeResponse :=
  if st.ner_model.isNone then .error ⟨503, "Model not loaded"⟩
  else
    match BiomedicalNER.extract_entities st.ner_model text with
    | .ok entities => .ok ⟨text, entities, entities.length⟩
    | .error e => .error ⟨500, e.msg⟩

/-- Endpoint `POST /summarize` (`summarize_text` in `server.py`). -/
def summarize_text (st : ServerState) (seed : ℕ) (text : Str)
    (max_length min_length : ℤ) (do_sample : Bool) :
    Except HTTPException SummaryResult :=
  if st.summarizer_model.isNone then
    .error ⟨503, "Summarization model not loaded"⟩
  else if (pyStrip text).isEmpty then .error ⟨400, "Text input cannot be empty"⟩
  else
    match BiomedicalSummarizer.summarize_text st.summarizer_model seed text
        max_length min_length do_sample with
    | .ok r => .ok r
    | .error e => .error ⟨500, "Internal server error: " ++ e.msg⟩

/-- Endpoint `POST /summarize-simple` (`summarize_simple` in
`server.py`): uses the service defaults `max_length=60`,
`min_length=20`, `do_sample=False`. -/
def summarize_simple (st : ServerState) (seed : ℕ) (text : Str) :
    Except HTTPException SimpleSummaryResponse :=
  if st.summarizer_model.isNone then
    .error ⟨503, "Summarization model not loaded"⟩
  else if (pyStrip text).isEmpty then .error ⟨400, "Text input cannot be empty"⟩
  else
    match BiomedicalSummarizer.summarize_text st.summarizer_model seed text
        60 20 false with
    | .ok r => .ok ⟨r.original_text, r.summary, r.compression_ratio⟩
    | .error e => .error ⟨500, e.msg⟩

/-- Endpoint `POST /extract-and-summarize` (`extract_and_summarize` in
`server.py`): 503 when either handle is unset, 400 on blank text, then
entity extraction followed by summarization; a failure of either
service aborts the request with a 500. -/
def extract_and_summarize (st : ServerState) (seed : ℕ) (text : Str)
    (max_length min_length : ℤ) (do_sample : Bool) :
    Except HTTPException CombinedResponse :=
  if st.ner_model.isNone || st.summarizer_model.isNone then
    .error ⟨503, "One or more models not loaded"⟩
  else if (pyStrip text).isEmpty then .error ⟨400, "Text input cannot be empty"⟩
  else
    match BiomedicalNER.extract_entities st.ner_model text with
    | .error e => .error ⟨500, e.msg⟩
    | .ok entities =>
      match BiomedicalSummarizer.summarize_text st.summarizer_model seed text
          max_length min_length do_sample with
      | .error e => .error ⟨500, e.msg⟩
      | .ok s =>
        .ok ⟨text, s.summary, entities, entities.length,
             s.compression_ratio, s.original_length, s.summary_length⟩

/-- Startup hook `startup_event` in `server.py`: both globals start as `None`; the
NER engine is constructed and assigned first, then the summarizer; any
construction failure leaves the remaining handles `None` and re-raises.
The inputs are the outcomes of the two engine constructions. -/
def startup_event (load_ner : Except String NEREngine)
    (load_summarizer : Except String SummEngine) :
    ServerState × Except String Unit :=
  match load_ner with
  | .error e => (⟨none, none⟩, .error e)
  | .ok n =>
    match load_summarizer with
    | .error e => (⟨some n, none⟩, .error e)
    | .ok s => (⟨some n, some s⟩, .ok ())

end Server

/-! ### Helper lemmas -/

theorem pySplitGo_ne_nil : ∀ (s acc : Str), acc ≠ [] → pySplitGo s acc ≠ []
  | [], acc, h => by simp [pySplitGo, List.isEmpty_iff, h]
  | c :: cs, acc, h => by
    simp only [pySplitGo]
    split
    · rw [if_neg (by simpa [List.isEmpty_iff] using h)]
      simp
    · exact pySplitGo_ne_nil cs (c :: acc) (by simp)

theorem pySplitGo_eq_nil (s : Str) : ∀ (acc : Str), pySplitGo s acc = [] →
    ∀ c ∈ s, isPySpace c := by
  induction s with
  | nil => simp
  | cons c cs ih =>
    intro acc h x hx
    simp only [pySplitGo] at h
    by_cases hc : isPySpace c
    · rw [if_pos hc] at h
      by_cases ha : acc.isEmpty
      · rw [if_pos ha] at h
        rcases List.mem_cons.mp hx with rfl | hx2
        · exact hc
        · exact ih [] h x hx2
      · rw [if_neg ha] at h
        exact absurd h (by simp)
    · rw [if_neg hc] at h
      exact absurd h (pySplitGo_ne_nil cs (c :: acc) (by simp))

theorem pyStrip_nil_of_all_space (s : Str) (h : ∀ c ∈ s, isPySpace c) :
    pyStrip s = [] := by
  unfold pyStrip
  rw [List.dropWhile_eq_nil_iff.mpr h]
  simp

theorem pySplit_length_pos (s : Str) (h : (pyStrip s).isEmpty = false) :
    0 < (pySplit s).length := by
  by_cases hsplit : pySplit s = []
  · have hall : ∀ c ∈ s, isPySpace c := pySplitGo_eq_nil s [] hsplit
    rw [pyStrip_nil_of_all_space s hall] at h
    simp at h
  · exact List.length_pos.mpr hsplit

theorem round2Int_nonneg (q : ℚ) (h0 : 0 ≤ q) : 0 ≤ round2Int q := by
  unfold round2Int
  have hfl : (0:ℤ) ≤ ⌊q * 100⌋ :=
    Int.floor_nonneg.mpr (mul_nonneg h0 (by norm_num))
  split_ifs <;> omega

theorem round2Int_le_100 (q : ℚ) (h1 : q ≤ 1) : round2Int q ≤ 100 := by
  unfold round2Int
  have hs1 : q * 100 ≤ 100 := by nlinarith
  have h100 : ⌊(100:ℚ)⌋ = 100 := by norm_num
  have hfl_le : ⌊q * 100⌋ ≤ 100 := by
    have := Int.floor_le_floor hs1
    rwa [h100] at this
  have hflle : (⌊q * 100⌋ : ℚ) ≤ q * 100 := Int.floor_le _
  split_ifs with hlt hgt heven
  · exact hfl_le
  · have hq : (⌊q * 100⌋ : ℚ) < 100 := by linarith
    have : ⌊q * 100⌋ < 100 := by exact_mod_cast hq
    omega
  · exact hfl_le
  · have hq : (⌊q * 100⌋ : ℚ) ≤ 100 - 1/2 := by linarith
    have : (⌊q * 100⌋ : ℚ) < 100 := by linarith
    have : ⌊q * 100⌋ < 100 := by exact_mod_cast this
    omega

theorem pyRound2_nonneg (q : ℚ) (h0 : 0 ≤ q) : 0 ≤ pyRound2 q := by
  unfold pyRound2
  apply div_nonneg _ (by norm_num)
  exact_mod_cast round2Int_nonneg q h0

theorem pyRound2_le_one (q : ℚ) (h1 : q ≤ 1) : pyRound2 q ≤ 1 := by
  unfold pyRound2
  rw [div_le_one (by norm_num)]
  exact_mod_cast round2Int_le_100 q h1

/-! ### Concrete engines and inputs used by the witnesses -/

/-- A summarization engine that always produces the two-character
summary `"ok"`, ignoring bounds, sampling flag and seed. -/
def engSumOk : SummEngine := ⟨fun _ _ _ _ _ => .ok ['o', 'k']⟩

/-- A NER engine that returns no spans on any input. -/
def engNerEmpty : NEREngine := ⟨fun _ => .ok []⟩

/-- A NER engine that always fails with message `"boom"`. -/
def engNerBoom : NEREngine := ⟨fun _ => .error "boom"⟩

/-- The three-character input text `"a b"` (two words). -/
def txtAB : Str := ['a', ' ', 'b']

/-- A whitespace-only input text. -/
def txtWS : Str := [' ']

/-! ### Claims -/

/-- C1: for every successful `summarize_text` call, the returned
`original_length` and `summary_length` are the whitespace word counts of
the original text and of the summary text respectively, and
`compression_ratio` is `summary_length / original_length` rounded to two
decimal places. -/
theorem C1_summarize_counts_and_ratio
    (eng : SummEngine) (seed : ℕ) (text : Str) (max_length min_length : ℤ)
    (do_sample : Bool) (r : SummaryResult)
    (h : BiomedicalSummarizer.summarize_text (some eng) seed text
        max_length min_length do_sample = .ok r) :
    r.original_text = text ∧
    r.original_length = (pySplit r.original_text).length ∧
    r.summary_length = (pySplit r.summary).length ∧
    r.compression_ratio =
      pyRound2 ((r.summary_length : ℚ) / (r.original_length : ℚ)) := by
  unfold BiomedicalSummarizer.summarize_text at h
  split at h
  · exact absurd h (by simp)
  · split at h
    · exact absurd h (by simp)
    · split at h
      · exact absurd h (by simp)
      · rw [Except.ok.injEq] at h
        subst h
        simp

/-- Witness for C1 at a concrete engine and input: `"a b"` summarized to
`"ok"`. -/
theorem C1_witness :
    (let r := { original_text := txtAB
                summary := ['o', 'k']
                original_length := (pySplit txtAB).length
                summary_length := (pySplit ['o', 'k']).length
                compression_ratio :=
                  pyRound2 (((pySplit ['o', 'k']).length : ℚ) / ((pySplit txtAB).length : ℚ))
                max_length := 60
                min_length := 20 : SummaryResult }
     r.original_text = txtAB ∧
     r.original_length = (pySplit r.original_text).length ∧
     r.summary_length = (pySplit r.summary).length ∧
     r.compression_ratio =
       pyRound2 ((r.summary_length : ℚ) / (r.original_length : ℚ))) :=
  C1_summarize_counts_and_ratio engSumOk 0 txtAB 60 20 false _ rfl

/-- C2 counterexample: the simple-analyze endpoint does not reject
whitespace-only text.  With a loaded NER engine it forwards the blank
text to the engine: a span-less engine yields a 200 success, a failing
engine yields the 500 from the engine — in neither case the claimed
400 validation failure. -/
theorem C2_counterexample :
    Server.analyze_text ⟨some engNerEmpty, none⟩ txtWS =
      Except.ok ⟨txtWS, [], 0⟩ ∧
    Server.analyze_text ⟨some engNerBoom, none⟩ txtWS =
      Except.error ⟨500, "boom"⟩ :=
  ⟨rfl, rfl⟩

/-- C2 amended: every text-accepting operation except simple analyze —
extract entities, summarize, simple summarize and the combined
operation — rejects empty or whitespace-only text with a 400 validation
failure before consulting its inference engine (provided the relevant
engine handles are loaded, otherwise the 503 readiness check fires
first); simple analyze performs no such validation and passes the blank
text to the engine. -/
theorem C2_blank_text_rejected
    (st : ServerState) (ne : NEREngine) (se : SummEngine) (seed : ℕ)
    (text : Str) (max_length min_length : ℤ) (do_sample : Bool)
    (hblank : (pyStrip text).isEmpty = true) :
    (st.ner_model = some ne →
      Server.extract_entities st text =
        .error ⟨400, "Text input cannot be empty"⟩) ∧
    (st.summarizer_model = some se →
      Server.summarize_text st seed text max_length min_length do_sample =
        .error ⟨400, "Text input cannot be empty"⟩ ∧
      Server.summarize_simple st seed text =
        .error ⟨400, "Text input cannot be empty"⟩) ∧
    (st.ner_model = some ne → st.summarizer_model = some se →
      Server.extract_and_summarize st seed text max_length min_length do_sample =
        .error ⟨400, "Text input cannot be empty"⟩) := by
  refine ⟨fun hn => ?_, fun hs => ⟨?_, ?_⟩, fun hn hs => ?_⟩
  · simp [Server.extract_entities, hn, hblank]
  · simp [Server.summarize_text, hs, hblank]
  · simp [Server.summarize_simple, hs, hblank]
  · simp [Server.extract_and_summarize, hn, hs, hblank]

/-- Witness for the amended C2 at a fully loaded state and the
whitespace-only text `" "`. -/
theorem C2_witness :
    ((⟨some engNerEmpty, some engSumOk⟩ : ServerState).ner_model = some engNerEmpty →
      Server.extract_entities ⟨some engNerEmpty, some engSumOk⟩ txtWS =
        .error ⟨400, "Text input cannot be empty"⟩) ∧
    ((⟨some engNerEmpty, some engSumOk⟩ : ServerState).summarizer_model = some engSumOk →
      Server.summarize_text ⟨some engNerEmpty, some engSumOk⟩ 0 txtWS 60 20 false =
        .error ⟨400, "Text input cannot be empty"⟩ ∧
      Server.summarize_simple ⟨some engNerEmpty, some engSumOk⟩ 0 txtWS =
        .error ⟨400, "Text input cannot be empty"⟩) ∧
    ((⟨some engNerEmpty, some engSumOk⟩ : ServerState).ner_model = some engNerEmpty →
      (⟨some engNerEmpty, some engSumOk⟩ : ServerState).summarizer_model = some engSumOk →
      Server.extract_and_summarize ⟨some engNerEmpty, some engSumOk⟩ 0 txtWS 60 20 false =
        .error ⟨400, "Text input cannot be empty"⟩) :=
  C2_blank_text_rejected ⟨some engNerEmpty, some engSumOk⟩ engNerEmpty engSumOk
    0 txtWS 60 20 false rfl

/-- C3: for every non-empty input text, whenever the token-classification
engine returns spans that honour its contract (ascending start offsets,
scores in `[0,1]`, well-formed offsets, as §4.2 of the design assigns to
the aggregation pipeline), `extract_entities` returns entities ordered by
non-decreasing `start`, with every `score` in `[0,1]` and
`start ≤ end` — the per-entity rounding of the score preserves the unit
interval and the straight map preserves the order. -/
theorem C3_extract_entities_sorted_and_valid
    (eng : NEREngine) (text : Str) (raws : List RawEntity)
    (ents : List Entity)
    (_hne : (pyStrip text).isEmpty = false)
    (hrun : eng.run text = .ok raws)
    (hsorted : raws.Pairwise (fun a b => a.start.getD 0 ≤ b.start.getD 0))
    (hvalid : ∀ r ∈ raws,
      (0 ≤ r.score ∧ r.score ≤ 1) ∧ r.start.getD 0 ≤ r.«end».getD 0)
    (h : BiomedicalNER.extract_entities (some eng) text = .ok ents) :
    ents.Pairwise (fun a b => a.start ≤ b.start) ∧
    ∀ e ∈ ents, (0 ≤ e.score ∧ e.score ≤ 1) ∧ e.start ≤ e.«end» := by
  simp only [BiomedicalNER.extract_entities, hrun, Except.ok.injEq] at h
  subst h
  constructor
  · rw [List.pairwise_map]
    exact hsorted.imp (fun hab => by simpa [formatEntity] using hab)
  · intro e he
    rcases List.mem_map.mp he with ⟨r, hr, rfl⟩
    rcases hvalid r hr with ⟨⟨hs0, hs1⟩, hse⟩
    exact ⟨⟨pyRound2_nonneg r.score hs0, pyRound2_le_one r.score hs1⟩,
      by simpa [formatEntity] using hse⟩

/-- Witness for C3: an engine returning two well-formed spans
(`start`/`end` pairs `(0,2)` and `(4,6)`, scores `1` and `0`) on the
input `"a b"`. -/
theorem C3_witness :
    ((List.map formatEntity
        [⟨['a'], ['D'], 1, some 0, some 2⟩,
         ⟨['b'], ['D'], 0, some 4, some 6⟩]).Pairwise
      (fun a b => a.start ≤ b.start)) ∧
    ∀ e ∈ List.map formatEntity
        [⟨['a'], ['D'], 1, some 0, some 2⟩,
         ⟨['b'], ['D'], 0, some 4, some 6⟩],
      (0 ≤ e.score ∧ e.score ≤ 1) ∧ e.start ≤ e.«end» :=
  C3_extract_entities_sorted_and_valid
    ⟨fun _ => .ok [⟨['a'], ['D'], 1, some 0, some 2⟩,
                   ⟨['b'], ['D'], 0, some 4, some 6⟩]⟩
    txtAB
    [⟨['a'], ['D'], 1, some 0, some 2⟩, ⟨['b'], ['D'], 0, some 4, some 6⟩]
    _ rfl rfl
    (by simp)
    (by
      intro r hr
      rcases List.mem_cons.mp hr with rfl | hr2
      · exact ⟨⟨zero_le_one, le_refl 1⟩, by simp⟩
      · rcases List.mem_cons.mp hr2 with rfl | hr3
        · exact ⟨⟨le_refl 0, zero_le_one⟩, by simp⟩
        · simp at hr3)
    rfl

/-- C4: with `do_sample = false`, two `summarize_text` calls with the same
`(text, max_length, min_length)` produce the same `summary`, for any
generation engine whose non-sampling mode is deterministic (independent
of the seed), as §4.3 of the design requires of the engine
configuration — the service forwards `do_sample` unchanged and adds no
randomness of its own. -/
theorem C4_deterministic_without_sampling
    (eng : SummEngine)
    (hdet : ∀ t ml mnl s1 s2, eng.run t ml mnl false s1 = eng.run t ml mnl false s2)
    (seed1 seed2 : ℕ) (text : Str) (max_length min_length : ℤ)
    (r1 r2 : SummaryResult)
    (h1 : BiomedicalSummarizer.summarize_text (some eng) seed1 text
        max_length min_length false = .ok r1)
    (h2 : BiomedicalSummarizer.summarize_text (some eng) seed2 text
        max_length min_length false = .ok r2) :
    r1.summary = r2.summary := by
  have key : BiomedicalSummarizer.summarize_text (some eng) seed1 text
        max_length min_length false =
      BiomedicalSummarizer.summarize_text (some eng) seed2 text
        max_length min_length false := by
    simp only [BiomedicalSummarizer.summarize_text]
    rw [hdet text max_length min_length seed1 seed2]
  rw [key] at h1
  have hr : r2 = r1 := by
    have h12 := h2.symm.trans h1
    rwa [Except.ok.injEq] at h12
  rw [hr]

/-- Witness for C4: the constant engine `engSumOk` is deterministic; two
calls with seeds `0` and `1` on `"a b"` agree. -/
theorem C4_witness :
    ({ original_text := txtAB
       summary := ['o', 'k']
       original_length := (pySplit txtAB).length
       summary_length := (pySplit ['o', 'k']).length
       compression_ratio :=
         pyRound2 (((pySplit ['o', 'k']).length : ℚ) / ((pySplit txtAB).length : ℚ))
       max_length := 60
       min_length := 20 : SummaryResult }).summary =
    ({ original_text := txtAB
       summary := ['o', 'k']
       original_length := (pySplit txtAB).length
       summary_length := (pySplit ['o', 'k']).length
       compression_ratio :=
         pyRound2 (((pySplit ['o', 'k']).length : ℚ) / ((pySplit txtAB).length : ℚ))
       max_length := 60
       min_length := 20 : SummaryResult }).summary :=
  C4_deterministic_without_sampling engSumOk (fun _ _ _ _ _ => rfl)
    0 1 txtAB 60 20 _ _ rfl rfl

/-- C5: the combined extract-and-summarize endpoint is all-or-nothing:
a success response carries exactly the entity result together with the
summary result, and if either service call fails the whole request
fails with no partial combined response. -/
theorem C5_combined_all_or_nothing
    (ne : NEREngine) (se : SummEngine) (seed : ℕ) (text : Str)
    (max_length min_length : ℤ) (do_sample : Bool) :
    (∀ r, Server.extract_and_summarize ⟨some ne, some se⟩ seed text
        max_length min_length do_sample = .ok r →
      ∃ ents s, BiomedicalNER.extract_entities (some ne) text = .ok ents ∧
        BiomedicalSummarizer.summarize_text (some se) seed text
          max_length min_length do_sample = .ok s ∧
        r.entities = ents ∧ r.total_entities = ents.length ∧
        r.summary = s.summary ∧ r.compression_ratio = s.compression_ratio ∧
        r.original_length = s.original_length ∧
        r.summary_length = s.summary_length) ∧
    (((∃ e1, BiomedicalNER.extract_entities (some ne) text = .error e1) ∨
      (∃ e2, BiomedicalSummarizer.summarize_text (some se) seed text
          max_length min_length do_sample = .error e2)) →
      ∃ e, Server.extract_and_summarize ⟨some ne, some se⟩ seed text
        max_length min_length do_sample = .error e) := by
  constructor
  · intro r h
    unfold Server.extract_and_summarize at h
    simp only [Option.isNone_some, Bool.or_self, Bool.false_eq_true,
      if_false, Bool.or_false] at h
    split at h
    · exact absurd h (by simp)
    · split at h
      · exact absurd h (by simp)
      · split at h
        · exact absurd h (by simp)
        · rw [Except.ok.injEq] at h
          subst h
          exact ⟨_, _, by assumption, by assumption, rfl, rfl, rfl, rfl, rfl, rfl⟩
  · intro hfail
    unfold Server.extract_and_summarize
    simp only [Option.isNone_some, Bool.or_self, Bool.false_eq_true, if_false]
    by_cases hblank : (pyStrip text).isEmpty
    · exact ⟨_, by rw [if_pos hblank]⟩
    · rw [if_neg hblank]
      rcases hfail with ⟨e1, he1⟩ | ⟨e2, he2⟩
      · exact ⟨_, by rw [he1]⟩
      · cases hx : BiomedicalNER.extract_entities (some ne) text with
        | error e => exact ⟨_, rfl⟩
        | ok ents => exact ⟨_, by rw [he2]⟩

/-- Witness for C5: with a failing NER engine the combined endpoint
returns an error (no partial response). -/
theorem C5_witness :
    ∃ e, Server.extract_and_summarize ⟨some engNerBoom, some engSumOk⟩ 0 txtAB
      60 20 false = .error e :=
  (C5_combined_all_or_nothing engNerBoom engSumOk 0 txtAB 60 20 false).2
    (Or.inl ⟨.inferenceError "boom", rfl⟩)

/-- C6: each single-purpose endpoint depends only on its own engine
handle — summarize succeeds with the NER handle unset and extract
entities succeeds with the summarizer handle unset — while the combined
endpoint answers 503 whenever either handle is unset. -/
theorem C6_readiness_dependence :
    (∀ (se : SummEngine) (seed : ℕ) (text : Str) (ml mnl : ℤ) (ds : Bool)
        (r : SummaryResult),
      BiomedicalSummarizer.summarize_text (some se) seed text ml mnl ds = .ok r →
      Server.summarize_text ⟨none, some se⟩ seed text ml mnl ds = .ok r) ∧
    (∀ (ne : NEREngine) (text : Str) (ents : List Entity),
      (pyStrip text).isEmpty = false →
      BiomedicalNER.extract_entities (some ne) text = .ok ents →
      Server.extract_entities ⟨some ne, none⟩ text = .ok ⟨text, ents, ents.length⟩) ∧
    (∀ (st : ServerState) (seed : ℕ) (text : Str) (ml mnl : ℤ) (ds : Bool),
      st.ner_model = none ∨ st.summarizer_model = none →
      Server.extract_and_summarize st seed text ml mnl ds =
        .error ⟨503, "One or more models not loaded"⟩) := by
  refine ⟨?_, ?_, ?_⟩
  · intro se seed text ml mnl ds r h
    by_cases hb : (pyStrip text).isEmpty
    · simp only [BiomedicalSummarizer.summarize_text, if_pos hb] at h
      exact absurd h (by simp)
    · simp [Server.summarize_text, hb, h]
  · intro ne text ents hb h
    simp [Server.extract_entities, hb, h]
  · intro st seed text ml mnl ds h
    rcases h with h | h <;> simp [Server.extract_and_summarize, h]

/-- Witness for C6: summarize succeeds with no NER handle, extraction
succeeds with no summarizer handle, and the combined endpoint answers
503 with both handles unset. -/
theorem C6_witness :
    Server.summarize_text ⟨none, some engSumOk⟩ 0 txtAB 60 20 false =
      .ok { original_text := txtAB
            summary := ['o', 'k']
            original_length := (pySplit txtAB).length
            summary_length := (pySplit ['o', 'k']).length
            compression_ratio :=
              pyRound2 (((pySplit ['o', 'k']).length : ℚ) / ((pySplit txtAB).length : ℚ))
            max_length := 60
            min_length := 20 } ∧
    Server.extract_entities ⟨some engNerEmpty, none⟩ txtAB =
      .ok ⟨txtAB, [], 0⟩ ∧
    Server.extract_and_summarize ⟨none, none⟩ 0 txtAB 60 20 false =
      .error ⟨503, "One or more models not loaded"⟩ :=
  ⟨C6_readiness_dependence.1 engSumOk 0 txtAB 60 20 false _ rfl,
   C6_readiness_dependence.2.1 engNerEmpty txtAB [] rfl rfl,
   C6_readiness_dependence.2.2 ⟨none, none⟩ 0 txtAB 60 20 false (Or.inl rfl)⟩

/-- C7: `summarize_text` forwards `max_length` and `min_length` to the
generation engine unchanged for every pair — including pairs with
`min_length > max_length`, since no relationship is validated — and
echoes the same values back in the result's `max_length` and
`min_length` fields. -/
theorem C7_bounds_forwarded_and_echoed
    (eng : SummEngine) (seed : ℕ) (text : Str) (max_length min_length : ℤ)
    (do_sample : Bool) (stext : Str)
    (hrun : eng.run text max_length min_length do_sample seed = .ok stext)
    (hnb : (pyStrip text).isEmpty = false) :
    BiomedicalSummarizer.summarize_text (some eng) seed text
        max_length min_length do_sample =
      .ok { original_text := text
            summary := stext
            original_length := (pySplit text).length
            summary_length := (pySplit stext).length
            compression_ratio :=
              pyRound2 (((pySplit stext).length : ℚ) / ((pySplit text).length : ℚ))
            max_length := max_length
            min_length := min_length } := by
  simp [BiomedicalSummarizer.summarize_text, hnb, hrun]

/-- Witness for C7 at the inverted pair `max_length = 5`,
`min_length = 10`: both are handed to the engine and echoed back. -/
theorem C7_witness :
    BiomedicalSummarizer.summarize_text (some engSumOk) 0 txtAB 5 10 true =
      .ok { original_text := txtAB
            summary := ['o', 'k']
            original_length := (pySplit txtAB).length
            summary_length := (pySplit ['o', 'k']).length
            compression_ratio :=
              pyRound2 (((pySplit ['o', 'k']).length : ℚ) / ((pySplit txtAB).length : ℚ))
            max_length := 5
            min_length := 10 } :=
  C7_bounds_forwarded_and_echoed engSumOk 0 txtAB 5 10 true ['o', 'k'] rfl rfl

/-- C8: if constructing either inference engine fails during startup,
the failure propagates to the caller of `startup_event` and the failed
engine's handle stays `None` (not ready); no silent partial success. -/
theorem C8_startup_failure_propagates :
    (∀ (e : String) (ls : Except String SummEngine),
      Server.startup_event (.error e) ls = (⟨none, none⟩, .error e)) ∧
    (∀ (n : NEREngine) (e : String),
      Server.startup_event (.ok n) (.error e) = (⟨some n, none⟩, .error e)) :=
  ⟨fun _ _ => rfl, fun _ _ => rfl⟩

/-- C9: an input whose stripped form is non-empty has a strictly
positive whitespace word count, so the division computing
`compression_ratio` in `summarize_text` never sees a zero divisor — on
every successful call the recorded `original_length` is positive. -/
theorem C9_word_count_positive :
    (∀ text : Str, (pyStrip text).isEmpty = false → 0 < (pySplit text).length) ∧
    (∀ (eng : SummEngine) (seed : ℕ) (text : Str) (ml mnl : ℤ) (ds : Bool)
        (r : SummaryResult),
      BiomedicalSummarizer.summarize_text (some eng) seed text ml mnl ds = .ok r →
      0 < r.original_length) := by
  refine ⟨fun text h => pySplit_length_pos text h, ?_⟩
  intro eng seed text ml mnl ds r h
  simp only [BiomedicalSummarizer.summarize_text] at h
  split at h
  · exact absurd h (by simp)
  · split at h
    · exact absurd h (by simp)
    · rw [Except.ok.injEq] at h
      subst h
      rename_i hb _ _ _
      rw [Bool.not_eq_true] at hb
      exact pySplit_length_pos text hb

/-- Witness for C9 at the two-word input `"a b"`. -/
theorem C9_witness :
    0 < (pySplit txtAB).length ∧
    0 < ({ original_text := txtAB
           summary := ['o', 'k']
           original_length := (pySplit txtAB).length
           summary_length := (pySplit ['o', 'k']).length
           compression_ratio :=
             pyRound2 (((pySplit ['o', 'k']).length : ℚ) / ((pySplit txtAB).length : ℚ))
           max_length := 60
           min_length := 20 : SummaryResult }).original_length :=
  ⟨C9_word_count_positive.1 txtAB rfl,
   C9_word_count_positive.2 engSumOk 0 txtAB 60 20 false _ rfl⟩

/-- C10: entities whose raw engine span lacks a start or end offset get
`0` in the corresponding field of the formatted entity — the operation
still returns a complete entity for them rather than failing or
omitting the field. -/
theorem C10_missing_offsets_default_to_zero
    (eng : NEREngine) (text : Str) (raws : List RawEntity)
    (hrun : eng.run text = .ok raws) :
    BiomedicalNER.extract_entities (some eng) text = .ok (raws.map formatEntity) ∧
    ∀ r ∈ raws,
      (r.start = none → (formatEntity r).start = 0) ∧
      (r.«end» = none → (formatEntity r).«end» = 0) := by
  refine ⟨by simp [BiomedicalNER.extract_entities, hrun], ?_⟩
  intro r _
  exact ⟨fun h => by simp [formatEntity, h], fun h => by simp [formatEntity, h]⟩

/-- Witness for C10: an engine producing a single span with both
offsets missing. -/
theorem C10_witness :
    BiomedicalNER.extract_entities
        (some ⟨fun _ => .ok [⟨['x'], ['D'], 1, none, none⟩]⟩) txtAB =
      .ok ([(⟨['x'], ['D'], 1, none, none⟩ : RawEntity)].map formatEntity) ∧
    ∀ r ∈ [(⟨['x'], ['D'], 1, none, none⟩ : RawEntity)],
      (r.start = none → (formatEntity r).start = 0) ∧
      (r.«end» = none → (formatEntity r).«end» = 0) :=
  C10_missing_offsets_default_to_zero
    ⟨fun _ => .ok [⟨['x'], ['D'], 1, none, none⟩]⟩ txtAB
    [⟨['x'], ['D'], 1, none, none⟩] rfl
